import Mathlib

/-!
Verification development for the MoviesApi repository: a REST API for movies
and embedded reviews with JWT authentication, role-based authorization,
a derived average-rating aggregate, and a standardized error envelope.

The JavaScript source is shallowly embedded: controllers and middleware become
pure Lean functions over an explicit store (a list of movie documents and a
list of user documents), JavaScript numbers are modelled as exact rationals
with the IEEE-754 binary64 rounding made explicit where it matters
(the average-rating division), and fallible middleware chains become
`Except`/`Option` values.
-/

set_option maxRecDepth 20000

namespace MoviesApi

/-! ## Kernel-evaluable rational arithmetic

The `Rat` field operations of the ambient library are `@[irreducible]`, so
embedded code uses the following wrappers, each built from `Rat.divInt` and
integer arithmetic (which evaluate inside the kernel) and each proved equal
to the corresponding field operation below. -/

/-- Exact rational addition, expressed through `Rat.divInt`. -/
def qadd (a b : ℚ) : ℚ :=
  Rat.divInt (a.num * b.den + b.num * a.den) (a.den * b.den)

/-- Exact rational multiplication, expressed through `Rat.divInt`. -/
def qmul (a b : ℚ) : ℚ :=
  Rat.divInt (a.num * b.num) (a.den * b.den)

/-- Exact rational division, expressed through `Rat.divInt`. -/
def qdiv (a b : ℚ) : ℚ :=
  Rat.divInt (a.num * b.den) (b.num * a.den)

/-- Boolean comparison `a ≤ b` on rationals by cross-multiplication. -/
def qleB (a b : ℚ) : Bool :=
  decide (a.num * b.den ≤ b.num * a.den)

theorem qadd_eq (a b : ℚ) : qadd a b = a + b := by
  have ha : ((a.den : ℚ)) ≠ 0 := Nat.cast_ne_zero.mpr a.den_nz
  have hb : ((b.den : ℚ)) ≠ 0 := Nat.cast_ne_zero.mpr b.den_nz
  rw [qadd, Rat.divInt_eq_div]
  conv_rhs => rw [← Rat.num_div_den a, ← Rat.num_div_den b]
  push_cast
  field_simp

theorem qmul_eq (a b : ℚ) : qmul a b = a * b := by
  have ha : ((a.den : ℚ)) ≠ 0 := Nat.cast_ne_zero.mpr a.den_nz
  have hb : ((b.den : ℚ)) ≠ 0 := Nat.cast_ne_zero.mpr b.den_nz
  rw [qmul, Rat.divInt_eq_div]
  conv_rhs => rw [← Rat.num_div_den a, ← Rat.num_div_den b]
  push_cast
  field_simp

theorem qdiv_eq (a b : ℚ) : qdiv a b = a / b := by
  have ha : ((a.den : ℚ)) ≠ 0 := Nat.cast_ne_zero.mpr a.den_nz
  have hb : ((b.den : ℚ)) ≠ 0 := Nat.cast_ne_zero.mpr b.den_nz
  rcases eq_or_ne b 0 with rfl | hb0
  · norm_num [qdiv, Rat.divInt_eq_div]
  · have hbn : ((b.num : ℚ)) ≠ 0 := Int.cast_ne_zero.mpr (Rat.num_ne_zero.mpr hb0)
    rw [qdiv, Rat.divInt_eq_div]
    conv_rhs => rw [← Rat.num_div_den a, ← Rat.num_div_den b]
    push_cast
    field_simp
    exact Or.inl (mul_comm _ _)

theorem qleB_iff (a b : ℚ) : qleB a b = true ↔ a ≤ b := by
  have ha : (0 : ℤ) < a.den := by exact_mod_cast a.pos
  have hb : (0 : ℤ) < b.den := by exact_mod_cast b.pos
  rw [qleB, decide_eq_true_eq]
  conv_rhs => rw [← Rat.num_divInt_den a, ← Rat.num_divInt_den b]
  rw [Rat.divInt_le_divInt ha hb]

/-! ## Numeric model of the JavaScript arithmetic

JavaScript numbers are IEEE-754 binary64.  The only place in the code where
the binary64 rounding is observable is `updateAverageRating`:
`+(totalRating / movie.reviews.length).toFixed(2)`.  The ratings are
integers between 1 and 5, so `totalRating` (a fold of exact small-integer
additions) is computed exactly; the division however rounds its exact
rational quotient to 53 significant bits (round-to-nearest, ties-to-even).
We model that rounding explicitly for arguments that are `0` or at least `1`
(every mean of ratings from `[1, 5]` lies in `[1, 5]`). -/

/-- Largest `e` with `2 ^ e ≤ x`, for `1 ≤ x < 2 ^ fuel`; structural
recursion on the fuel so that concrete inputs reduce in the kernel. -/
def floorLog2Aux : Nat → ℚ → Nat → Nat
  | 0, _, e => e
  | fuel + 1, x, e => if qleB 2 x then floorLog2Aux fuel (qdiv x 2) (e + 1) else e

/-- Binary exponent of `x`: the largest `e` with `2 ^ e ≤ x`, valid for
`1 ≤ x < 2 ^ 64`. -/
def floorLog2 (x : ℚ) : Nat :=
  floorLog2Aux 64 x 0

/-- Round a rational to the nearest integer, ties to the even integer —
the rounding applied by IEEE-754 binary64 arithmetic to significands. -/
def roundNearestEven (x : ℚ) : ℤ :=
  let f := Rat.floor x
  let t := 2 * (x.num - f * x.den)
  if t < (x.den : ℤ) then f
  else if (x.den : ℤ) < t then f + 1
  else if f % 2 = 0 then f else f + 1

/-- The power `2 ^ k` as a rational, for an integer exponent `k`. -/
def pow2 (k : ℤ) : ℚ :=
  if 0 ≤ k then Rat.divInt (2 ^ k.toNat) 1 else Rat.divInt 1 (2 ^ (-k).toNat)

/-- Round a nonnegative rational to the nearest IEEE-754 binary64 value
(round-to-nearest, ties-to-even, 53-bit significand).  Faithful for
`x = 0` and for `1 ≤ x < 2 ^ 64`, which covers every value this
development feeds to it (means of ratings in `[1, 5]`). -/
def doubleRound (x : ℚ) : ℚ :=
  if x = 0 then 0
  else
    let k : ℤ := 52 - (floorLog2 x : ℤ)
    qdiv (Rat.divInt (roundNearestEven (qmul x (pow2 k))) 1) (pow2 k)

/-- ECMAScript `Number.prototype.toFixed(2)` on a nonnegative argument,
read back as an exact decimal: the integer `n` minimizing `|n / 100 - x|`,
ties resolved to the larger `n` (ES2020 §20.1.3.3) — for nonnegative `x`
that is `⌊100 x + 1/2⌋ / 100`, i.e. round-half-away-from-zero at the second
decimal.  The JavaScript code re-parses the decimal string with unary `+`;
we keep the exact decimal value, which is what the string denotes and what
the stored number prints as. -/
def toFixed2 (x : ℚ) : ℚ :=
  Rat.divInt (Rat.floor (qadd (qmul 100 x) (Rat.divInt 1 2))) 100

theorem ratFloor_eq_floor (x : ℚ) : Rat.floor x = ⌊x⌋ := by
  rw [Rat.floor_def', Rat.floor_def]

theorem toFixed2_eq (x : ℚ) : toFixed2 x = ((⌊100 * x + 1 / 2⌋ : ℤ) : ℚ) / 100 := by
  rw [toFixed2, ratFloor_eq_floor, qadd_eq, qmul_eq, Rat.divInt_eq_div,
    Rat.divInt_eq_div]
  push_cast
  norm_num

/-! ## Data model

Documents as stored by Mongoose in the final iteration of the repository
(`src/models/movie.model.js` together with the embedded review schema that
carries an `author` reference, and the user model with username, password
and role). -/

/-- An embedded review subdocument: `{content (String, default ''),
rating (Number, required, min 1, max 5), author (ObjectId ref User,
required)}`.  Object ids are modelled as strings (the code compares
`review.author.toString()` against the string id from the JWT payload). -/
structure Review where
  id : String
  content : String
  rating : ℚ
  author : String
deriving DecidableEq, Repr

/-- A movie document: `{title, description, types, averageRating
(default 0), reviews (embedded review subdocuments)}`. -/
structure Movie where
  id : String
  title : String
  description : String
  types : List String
  averageRating : ℚ
  reviews : List Review
deriving DecidableEq, Repr

/-- A user document: `{username (unique), password (stored hashed),
role ('admin' | 'user', default 'user')}`. -/
structure User where
  id : String
  username : String
  password : String
  role : String
deriving DecidableEq, Repr

/-! ## Rating aggregator

`updateAverageRating` from `review.controller.js`:

```js
if (movie.reviews.length === 0) { movie.averageRating = 0; }
else {
  const totalRating = movie.reviews.reduce((sum, review) => sum + review.rating, 0);
  movie.averageRating = +(totalRating / movie.reviews.length).toFixed(2);
}
```

The `reduce` is a left fold of binary64 additions; on integer ratings those
additions are exact, so the fold is modelled by the exact rational fold.
The division is the one rounded binary64 operation, modelled by
`doubleRound`. -/

/-- The `reduce((sum, review) => sum + review.rating, 0)` fold. -/
def totalRating (reviews : List Review) : ℚ :=
  reviews.foldl (fun sum r => qadd sum r.rating) 0

theorem totalRating_eq (reviews : List Review) :
    totalRating reviews = (reviews.map Review.rating).sum := by
  suffices h : ∀ init : ℚ,
      reviews.foldl (fun sum r => qadd sum r.rating) init
        = init + (reviews.map Review.rating).sum by
    simpa using h 0
  induction reviews with
  | nil => intro init; simp
  | cons r rest ih =>
    intro init
    rw [List.foldl_cons, ih, List.map_cons, List.sum_cons, qadd_eq]
    ring

/-- The movie controller's average-rating recomputation over the current
review list: the value assigned to `movie.averageRating`. -/
def updateAverageRating (reviews : List Review) : ℚ :=
  if reviews.length = 0 then 0
  else toFixed2 (doubleRound (qdiv (totalRating reviews) reviews.length))

/-- Written from the spec's words, for comparison with the code: "if
`reviews` is empty, result is 0. Otherwise result is the arithmetic mean of
all `rating` values, rounded to 2 decimal places … round-half-away-from-zero
for positive values".  For a nonnegative mean, round-half-away-from-zero at
the second decimal is exactly `toFixed2` (`⌊100 x + 1/2⌋ / 100`, see
`toFixed2_eq`); the spec applies it to the *exact* arithmetic mean. -/
def recomputeSpec (reviews : List Review) : ℚ :=
  if reviews.length = 0 then 0
  else toFixed2 (qdiv (totalRating reviews) reviews.length)

theorem recomputeSpec_eq (reviews : List Review) (h : reviews.length ≠ 0) :
    recomputeSpec reviews
      = ((⌊100 * ((reviews.map Review.rating).sum / reviews.length) + 1 / 2⌋ : ℤ) : ℚ)
          / 100 := by
  rw [recomputeSpec, if_neg h, toFixed2_eq, qdiv_eq, totalRating_eq]

/-! ## HTTP responses

Each JSON body shape the handlers emit becomes one constructor:
`res.status(s).json({message})` is `msgOnly`, `{success:false, message}` is
`failMsg`, `{success:false, error}` is `failErr`, `res.status(s).json(data)`
is `payload`, the `res.success(s, data)` envelope `{success:true, data}` is
`envelope`, and `res.status(204).send()` is `noContent`. -/

/-- An HTTP response with a payload of type `α`. -/
inductive Res (α : Type) where
  | msgOnly (status : Nat) (message : String)
  | failMsg (status : Nat) (message : String)
  | failErr (status : Nat) (error : String)
  | payload (status : Nat) (data : α)
  | envelope (status : Nat) (data : α)
  | noContent
deriving DecidableEq, Repr

/-- The HTTP status code of a response (`204` for `res.status(204).send()`). -/
def Res.statusOf {α : Type} : Res α → Nat
  | .msgOnly s _ => s
  | .failMsg s _ => s
  | .failErr s _ => s
  | .payload s _ => s
  | .envelope s _ => s
  | .noContent => 204

/-! ## Error taxonomy and the error-middleware chain

`src/middleware/error/index.js` mounts, in order:
`validationError.middleware`, `notFoundError.middleware`,
`conflictsError.middleware`, `finalError.middleware`.  Each middleware
handles its own error class and forwards everything else with `next(err)`;
`finalError` answers unconditionally. -/

/-- Which `AppException` subclass (if any) a thrown error belongs to —
the `instanceof` checks of the error middlewares. -/
inductive ExceptionKind where
  | validationException
  | notFoundException
  | conflictsException
  | plain
deriving DecidableEq, Repr

/-- A thrown JavaScript error, as observed by the error middlewares:
its `name`, `message`, `stack`, and its `instanceof` classification. -/
structure JsError where
  name : String
  message : String
  stack : String
  kind : ExceptionKind
deriving DecidableEq, Repr

/-- The `statusCode` carried by each `AppException` subclass.
`ValidationException` passes `400` to `super` (`validation.exception.js`).
Modelled from the spec: the `notFound.exception.js` and
`conflicts.exception.js` class files are not part of the sources; the spec's
failure-classification table fixes not-found at `404` and duplicate-key
conflict at `409`. -/
def exceptionStatusCode : ExceptionKind → Nat
  | .validationException => 400
  | .notFoundException => 404
  | .conflictsException => 409
  | .plain => 0

/-- A `NotFoundException` thrown by a controller via `next(...)`. -/
def notFoundException (message : String) : JsError :=
  { name := "Error", message := message, stack := "", kind := .notFoundException }

/-- A `ConflictsException` thrown on a duplicate unique key. -/
def conflictsException (message : String) : JsError :=
  { name := "Error", message := message, stack := "", kind := .conflictsException }

/-- A `ValidationException` thrown by the Joi body-validation middleware. -/
def validationException (message : String) : JsError :=
  { name := "Error", message := message, stack := "", kind := .validationException }

/-- A Mongoose validation error (`err.name === 'ValidationError'`). -/
def mongooseValidationError (message : String) : JsError :=
  { name := "ValidationError", message := message, stack := "", kind := .plain }

/-- `validationError.middleware.js`: Mongoose `ValidationError` or a
`ValidationException` becomes `400 {success:false, error}`; otherwise
`next(err)` (`none`). -/
def validationErrorMw {α : Type} (err : JsError) : Option (Res α) :=
  if err.name = "ValidationError" then some (.failErr 400 err.message)
  else if err.kind = .validationException then
    some (.failErr (exceptionStatusCode .validationException) err.message)
  else none

/-- `notFoundError.middleware.js`. -/
def notFoundErrorMw {α : Type} (err : JsError) : Option (Res α) :=
  if err.kind = .notFoundException then
    some (.failErr (exceptionStatusCode .notFoundException) err.message)
  else none

/-- `conflictsError.middleware.js`. -/
def conflictsErrorMw {α : Type} (err : JsError) : Option (Res α) :=
  if err.kind = .conflictsException then
    some (.failErr (exceptionStatusCode .conflictsException) err.message)
  else none

/-- `finalError.middleware.js`: logs the error's message and stack, then
answers `500 {success:false, message:'unintended error happened'}` —
the response itself is built from no part of the error. -/
def finalErrorMw {α : Type} (_err : JsError) : Res α :=
  .failMsg 500 "unintended error happened"

/-- The mounted error-middleware chain, in mounting order. -/
def errorPipeline {α : Type} (err : JsError) : Res α :=
  match validationErrorMw err with
  | some r => r
  | none =>
    match notFoundErrorMw err with
    | some r => r
    | none =>
      match conflictsErrorMw err with
      | some r => r
      | none => finalErrorMw err

/-! ## Tokens and guards

JWT mechanics are delegated to the `jsonwebtoken` library (`utils/jwt.js`):
`generateToken` signs `{id, role}` and a valid, unexpired token verifies
back to the payload it was signed from.  We model a signed token as its
payload; `authGuard` takes the verifier as an explicit function so that
invalid tokens (`validateToken` returning `null`) are representable. -/

/-- The JWT payload `{id, role}`. -/
structure JwtPayload where
  id : String
  role : String
deriving DecidableEq, Repr

/-- A signed token: an opaque carrier of the payload it was signed from. -/
structure AuthToken where
  payload : JwtPayload
deriving DecidableEq, Repr

/-- `generateToken` from `utils/jwt.js` (signing delegated to the library). -/
def generateToken (payload : JwtPayload) : AuthToken :=
  { payload := payload }

/-- Decoding a well-formed signed token recovers its payload (the
library-correctness assumption for `jwt.verify` within the expiry window). -/
def decodeToken (t : AuthToken) : Option JwtPayload :=
  some t.payload

/-- JavaScript `authorization.split(' ')`: split at every single space,
keeping empty fragments. -/
def splitSpaceAux : List Char → List Char → List String
  | [], acc => [String.mk acc.reverse]
  | c :: rest, acc =>
    if c = ' ' then String.mk acc.reverse :: splitSpaceAux rest []
    else splitSpaceAux rest (c :: acc)

/-- JavaScript `String.prototype.split(' ')`. -/
def splitSpace (s : String) : List String :=
  splitSpaceAux s.data []

/-- `middleware/authGuard.js`: reject with `401` when the `Authorization`
header is absent, not of the shape `Bearer <token>`, or carries a token the
verifier rejects; otherwise expose the verified payload as `req.user`.
The destructuring `const [type, token] = authorization.split(' ')` leaves
`token` undefined when there is no second fragment; `!token` treats that
like the empty string, which is how we model it. -/
def authGuard {α : Type} (validate : String → Option JwtPayload)
    (header : Option String) : Except (Res α) JwtPayload :=
  match header with
  | none => .error (.msgOnly 401 "Missing authorization header")
  | some authorization =>
    let parts := splitSpace authorization
    let type := parts.headD ""
    let token := (parts.drop 1).headD ""
    if type ≠ "Bearer" ∨ token = "" then
      .error (.msgOnly 401 "Invalid token format")
    else
      match validate token with
      | none => .error (.msgOnly 401 "Invalid token")
      | some payload => .ok payload

/-- `middleware/roleGuard.js`: `500` if no `req.user` was attached (server
misconfiguration — unreachable behind `authGuard`), `403` if the user's
role is not the required one, otherwise pass. -/
def roleGuard {α : Type} (role : String) (user : Option JwtPayload) :
    Except (Res α) Unit :=
  match user with
  | none => .error (.msgOnly 500 "Server permission configuration error")
  | some u =>
    if u.role ≠ role then
      .error (.msgOnly 403 "Forbidden: You do not have permission to perform this action")
    else .ok ()

/-! ## Review controller (final iteration of `review.controller.js`)

The store is the list of movie documents.  `Movie.findOne({'reviews._id':
id})` is the first movie holding a review with that id; `movie.reviews.id(
id)` is the first such review.  `movie.save()` persists the movie and runs
the schema validators on the modified review (`rating` required, `min: 1`,
`max: 5`); a failing validator surfaces as a Mongoose `ValidationError`
handed to the error chain, with nothing persisted. -/

/-- The request body `{content?, rating?}` of the review routes; `!=
undefined` in the code treats `null` and absence alike, so both are `none`. -/
structure ReviewBody where
  content : Option String
  rating : Option ℚ
deriving DecidableEq, Repr

/-- The Mongoose validators of the review schema's `rating` path. -/
def ratingValid (r : ℚ) : Bool :=
  qleB 1 r && qleB r 5

/-- Persisting one movie document: replace the stored document with the
same id. -/
def saveMovie (state : List Movie) (m : Movie) : List Movie :=
  state.map (fun x => if x.id = m.id then m else x)

/-- `Movie.findOne({'reviews._id': reviewId})`. -/
def findMovieWithReview (state : List Movie) (reviewId : String) : Option Movie :=
  state.find? (fun m => m.reviews.any (fun r => r.id == reviewId))

/-- `PATCH /v1/reviews/:id` handler `updateReview`: look the review up,
run the ABAC check (author or admin), apply the provided fields, recompute
the average rating, save.  Returns the response and the resulting store. -/
def updateReview (user : JwtPayload) (state : List Movie) (reviewId : String)
    (b : ReviewBody) : Res Review × List Movie :=
  match findMovieWithReview state reviewId with
  | none => (errorPipeline (notFoundException "Review not found"), state)
  | some movie =>
    match movie.reviews.find? (fun r => r.id == reviewId) with
    | none => (errorPipeline (notFoundException "Review not found"), state)
    | some review =>
      if review.author ≠ user.id ∧ user.role ≠ "admin" then
        (Res.failMsg 403 "Forbidden: You can only update your own reviews.", state)
      else
        let review' : Review := { review with
          content := b.content.getD review.content
          rating := b.rating.getD review.rating }
        if ratingValid review'.rating then
          let reviews' := movie.reviews.map
            (fun r => if r.id = reviewId then review' else r)
          let movie' := { movie with
            reviews := reviews'
            averageRating := updateAverageRating reviews' }
          (Res.payload 200 review', saveMovie state movie')
        else
          (errorPipeline (mongooseValidationError
            "Movie validation failed: rating out of range"), state)

/-- `DELETE /v1/reviews/:id` handler `deleteReview`: look the review up,
run the ABAC check (author or admin), remove the subdocument, recompute the
average rating, save, answer `204`. -/
def deleteReview (user : JwtPayload) (state : List Movie) (reviewId : String) :
    Res Review × List Movie :=
  match findMovieWithReview state reviewId with
  | none => (errorPipeline (notFoundException "Review not found"), state)
  | some movie =>
    match movie.reviews.find? (fun r => r.id == reviewId) with
    | none => (errorPipeline (notFoundException "Review not found"), state)
    | some review =>
      if review.author ≠ user.id ∧ user.role ≠ "admin" then
        (Res.failMsg 403 "Forbidden: You can only delete your own reviews.", state)
      else
        let reviews' := movie.reviews.filter (fun r => decide (r.id ≠ reviewId))
        let movie' := { movie with
          reviews := reviews'
          averageRating := updateAverageRating reviews' }
        (Res.noContent, saveMovie state movie')

/-- `POST /v1/movies/:id/reviews` handler `createReview` (final iteration):
find the movie, push `{content, rating, author: req.user.id}` — `content`
left undefined takes the schema default `''` — recompute the average, save
(validating the new review's `rating`), answer `201` with the new review. -/
def createReview (user : JwtPayload) (freshId : String) (state : List Movie)
    (movieId : String) (b : ReviewBody) : Res Review × List Movie :=
  match state.find? (fun m => m.id == movieId) with
  | none => (errorPipeline (notFoundException "Movie not found"), state)
  | some movie =>
    match b.rating with
    | none =>
      (errorPipeline (mongooseValidationError
        "Movie validation failed: rating: Path rating is required."), state)
    | some rating =>
      if ratingValid rating then
        let newReview : Review := { id := freshId, content := b.content.getD "",
                                    rating := rating, author := user.id }
        let reviews' := movie.reviews ++ [newReview]
        let movie' := { movie with
          reviews := reviews'
          averageRating := updateAverageRating reviews' }
        (Res.payload 201 newReview, saveMovie state movie')
      else
        (errorPipeline (mongooseValidationError
          "Movie validation failed: rating out of range"), state)

/-! ## Routes (routers/index.js, routers/review.router.js, final iteration)

`reviewRouter.patch('/:id', authGuard, updateReview)`,
`reviewRouter.delete('/:id', authGuard, deleteReview)`,
`movieRouter.post('/:id/reviews', authGuard, createReview)`,
and the admin-guarded movie mutations
`movieRouter.post/patch/delete(..., authGuard, roleGuard('admin'), handler)`. -/

/-- The `PATCH /v1/reviews/:id` route: `authGuard` then `updateReview`. -/
def reviewPatchRoute (validate : String → Option JwtPayload)
    (header : Option String) (state : List Movie) (reviewId : String)
    (b : ReviewBody) : Res Review × List Movie :=
  match authGuard validate header with
  | .error e => (e, state)
  | .ok user => updateReview user state reviewId b

/-- The `DELETE /v1/reviews/:id` route: `authGuard` then `deleteReview`. -/
def reviewDeleteRoute (validate : String → Option JwtPayload)
    (header : Option String) (state : List Movie) (reviewId : String) :
    Res Review × List Movie :=
  match authGuard validate header with
  | .error e => (e, state)
  | .ok user => deleteReview user state reviewId

/-- The `POST /v1/movies/:id/reviews` route: `authGuard` then
`createReview`. -/
def reviewPostRoute (validate : String → Option JwtPayload)
    (header : Option String) (freshId : String) (state : List Movie)
    (movieId : String) (b : ReviewBody) : Res Review × List Movie :=
  match authGuard validate header with
  | .error e => (e, state)
  | .ok user => createReview user freshId state movieId b

/-- A movie mutation route: `authGuard`, then `roleGuard('admin')`, then the
controller handler — the middleware stack shared by `POST /v1/movies`,
`PATCH /v1/movies/:id` and `DELETE /v1/movies/:id`. -/
def adminRoute {σ α : Type} (validate : String → Option JwtPayload)
    (header : Option String) (handler : JwtPayload → σ → Res α × σ) (s : σ) :
    Res α × σ :=
  match authGuard validate header with
  | .error e => (e, s)
  | .ok user =>
    match roleGuard "admin" (some user) with
    | .error e => (e, s)
    | .ok _ => handler user s

/-! ## Movie controller

`getMovies` (filtering, sorting, pagination) and `updateMovie`
(`Movie.findByIdAndUpdate(id, req.body, {new: true, runValidators: true})`)
from `movie.controller.js`. -/

/-- JavaScript `parseInt` on a decimal string: skip leading whitespace,
optional sign, longest digit prefix; `NaN` (here `none`) when no digit is
found.  (The legacy hexadecimal `0x` prefix of `parseInt` is not modelled.) -/
def jsParseInt (s : String) : Option ℤ :=
  let cs := s.data.dropWhile (fun c => c.isWhitespace)
  let signAndRest : ℤ × List Char :=
    match cs with
    | '-' :: rest => (-1, rest)
    | '+' :: rest => (1, rest)
    | rest => (1, rest)
  let ds := signAndRest.2.takeWhile (fun c => c.isDigit)
  if ds.isEmpty then none
  else some (signAndRest.1 * ds.foldl (fun acc c => 10 * acc + ((c.toNat : ℤ) - 48)) 0)

/-- `parseInt(q) || d`: the parsed value, except that `NaN` (no parse) and
`0` (falsy) fall back to the default — as in `page = parseInt(page) || 1`. -/
def parseIntOr (s : Option String) (d : ℤ) : ℤ :=
  match s with
  | none => d
  | some str =>
    match jsParseInt str with
    | none => d
    | some n => if n = 0 then d else n

/-- ASCII lowercasing, the fragment of `String.prototype.toLowerCase`
exercised here. -/
def jsToLower (s : String) : String :=
  String.mk (s.data.map Char.toLower)

/-- Substring test used for `String.prototype.includes`. -/
def strContainsAux (needle : List Char) : List Char → Bool
  | [] => needle.isEmpty
  | c :: rest => needle.isPrefixOf (c :: rest) || strContainsAux needle rest

/-- JavaScript `hay.includes(needle)`. -/
def strContains (hay needle : String) : Bool :=
  strContainsAux needle.data hay.data

/-- `Array.prototype.slice(s, e)`: negative indices count from the end,
then the clamped contiguous range is taken. -/
def jsSlice {α : Type} (l : List α) (s e : ℤ) : List α :=
  let len : ℤ := l.length
  let start := if s < 0 then max (len + s) 0 else min s len
  let stop := if e < 0 then max (len + e) 0 else min e len
  (l.take stop.toNat).drop start.toNat

/-- The query string of `GET /v1/movies`: every parameter optional, all
arriving as strings. -/
structure MoviesQuery where
  keyword : Option String
  sort : Option String
  page : Option String
  limit : Option String
deriving DecidableEq, Repr

/-- The keyword filter: when `keyword` is truthy (present and nonempty),
keep movies whose lowercased title or description contains the lowercased
keyword. -/
def keywordFilter (keyword : Option String) (l : List Movie) : List Movie :=
  match keyword with
  | none => l
  | some k =>
    if k = "" then l
    else
      let kl := jsToLower k
      l.filter (fun m =>
        strContains (jsToLower m.title) kl || strContains (jsToLower m.description) kl)

/-- The sort step: `sort === 'rating'` sorts by `averageRating` ascending,
`sort === '-rating'` descending, anything else leaves the order unchanged.
`Array.prototype.sort` is stable (ES2019), so the numeric comparator
`(a, b) => a.averageRating - b.averageRating` produces exactly the stable
insertion sort by the key. -/
def sortMovies (sort : Option String) (l : List Movie) : List Movie :=
  if sort = some "rating" then
    List.insertionSort (fun a b => a.averageRating ≤ b.averageRating) l
  else if sort = some "-rating" then
    List.insertionSort (fun a b => b.averageRating ≤ a.averageRating) l
  else l

/-- `GET /v1/movies` handler `getMovies`: parse `page`/`limit` with their
defaults, filter by keyword, sort, then slice out the requested page. -/
def getMovies (state : List Movie) (q : MoviesQuery) : List Movie :=
  let page := parseIntOr q.page 1
  let limit := parseIntOr q.limit 10
  let filteredMovies := keywordFilter q.keyword state
  let sorted := sortMovies q.sort filteredMovies
  let startIndex := (page - 1) * limit
  let endIndex := startIndex + limit
  jsSlice sorted startIndex endIndex

/-- The `PATCH /v1/movies/:id` request body as passed *wholesale* to
`Movie.findByIdAndUpdate(id, req.body, ...)`: any subset of the schema
paths may appear, including the derived `averageRating` and the embedded
`reviews` — no middleware strips them. -/
structure MovieUpdateBody where
  title : Option String
  description : Option String
  types : Option (List String)
  averageRating : Option ℚ
  reviews : Option (List Review)
deriving DecidableEq, Repr

/-- The `$set` semantics of `findByIdAndUpdate(id, body)`: each path present
in the body replaces the stored one.  (`runValidators` checks the provided
paths; `averageRating` declares no validators.) -/
def applyUpdate (b : MovieUpdateBody) (m : Movie) : Movie :=
  { m with
    title := b.title.getD m.title
    description := b.description.getD m.description
    types := b.types.getD m.types
    averageRating := b.averageRating.getD m.averageRating
    reviews := b.reviews.getD m.reviews }

/-- `PATCH /v1/movies/:id` handler `updateMovie`: `404` when the id is
unknown, otherwise apply the body and answer `200` with the updated
document.  The average rating is *not* recomputed on this path. -/
def updateMovie (state : List Movie) (movieId : String) (b : MovieUpdateBody) :
    Res Movie × List Movie :=
  match state.find? (fun m => m.id == movieId) with
  | none => (Res.msgOnly 404 "Movie not found", state)
  | some movie =>
    let movie' := applyUpdate b movie
    (Res.payload 200 movie', saveMovie state movie')

/-! ## Auth: Joi body validation, register, login

`validations/auth.validation.js` defines the Joi schemas; the
`validateBody` middleware turns a Joi failure into a `ValidationException`
(answered `400 {success:false, error}` by the error chain) *before* the
controller runs.  `auth.controller.js` then saves the new user — the
Mongoose pre-save hook hashes the password, the unique index on `username`
raises code `11000` on a duplicate, which the controller maps to a
`ConflictsException` — and answers with a signed `{id, role}` token.
Password hashing is delegated to bcrypt; it is modelled by an arbitrary
hash function passed in explicitly, with `user.validatePassword(p)`
(`bcrypt.compare`) succeeding exactly when the stored hash is the hash of
`p`. -/

/-- The character class `[a-zA-Z0-9_]` of the username pattern. -/
def isUsernameChar (c : Char) : Bool :=
  (('a' ≤ c && c ≤ 'z') || ('A' ≤ c && c ≤ 'Z') || ('0' ≤ c && c ≤ '9')
    || c == '_')

/-- The Joi `usernameSchema`: required, nonempty, matching `[a-zA-Z0-9_]+`,
length between 6 and 20 — rules checked in chain order, first failure
reported, each with the custom message the schema declares (the `min`
message's "3" is the schema's own text; the rule itself is `min(6)`). -/
def usernameError (username : Option String) : Option String :=
  match username with
  | none => some "Username is required"
  | some u =>
    if u = "" then some "\"username\" is not allowed to be empty"
    else if ¬ u.data.all isUsernameChar then
      some "Username may only contain letters, numbers, and underscores (_)"
    else if u.length < 6 then
      some "Username must be at least 3 characters long"
    else if 20 < u.length then
      some "Username must not exceed 20 characters"
    else none

/-- The Joi `passwordSchema`: required, nonempty, at least 8 characters,
containing a lowercase letter, an uppercase letter, a digit and one of
`!@#$`. -/
def passwordError (password : Option String) : Option String :=
  match password with
  | none => some "Password is required"
  | some p =>
    if p = "" then some "\"password\" is not allowed to be empty"
    else if p.length < 8 then some "Password must be at least 8 characters long"
    else if ¬ (p.data.any (fun c => 'a' ≤ c && c ≤ 'z')
        && p.data.any (fun c => 'A' ≤ c && c ≤ 'Z')
        && p.data.any (fun c => '0' ≤ c && c ≤ '9')
        && p.data.any (fun c => c == '!' || c == '@' || c == '#' || c == '$')) then
      some "Password must include uppercase letters, lowercase letters, numbers and special characters (e.g. !@#$)"
    else none

/-- The Joi `register` object schema with default `abortEarly`: the
username is validated first, then the password. -/
def registerBodyError (username password : Option String) : Option String :=
  match usernameError username with
  | some e => some e
  | none => passwordError password

/-- The Joi `login` object schema: both fields merely required (and, as Joi
strings, nonempty). -/
def loginBodyError (username password : Option String) : Option String :=
  match username with
  | none => some "\"username\" is required"
  | some u =>
    if u = "" then some "\"username\" is not allowed to be empty"
    else
      match password with
      | none => some "\"password\" is required"
      | some p =>
        if p = "" then some "\"password\" is not allowed to be empty" else none

/-- The `register` controller past validation: save the user (password
hashed by the pre-save hook, role defaulting to `'user'`, duplicate
username rejected by the unique index as a `ConflictsException`), then
answer `201 {success:true, data:{token}}` with a token over `{id, role}`. -/
def register (hash : String → String) (freshId : String) (store : List User)
    (username password : String) : Res AuthToken × List User :=
  if store.any (fun u => u.username == username) then
    (errorPipeline (conflictsException "Username already exists"), store)
  else
    let user : User := { id := freshId, username := username,
                         password := hash password, role := "user" }
    (Res.envelope 201 (generateToken { id := freshId, role := "user" }),
      store ++ [user])

/-- `POST /v1/auth/register`: `validateBody(register schema)` then the
controller.  (When validation passes, both fields are present; the
`getD ""` defaults are unreachable.) -/
def registerRoute (hash : String → String) (freshId : String)
    (store : List User) (username password : Option String) :
    Res AuthToken × List User :=
  match registerBodyError username password with
  | some msg => (errorPipeline (validationException msg), store)
  | none => register hash freshId store (username.getD "") (password.getD "")

/-- The `login` controller past validation: find the user by username,
check the password with `user.validatePassword` (`bcrypt.compare`), answer
`401` with the credential-neutral message on either failure, otherwise
`200 {success:true, data:{token}}` with a token over `{id, role}`. -/
def login (hash : String → String) (store : List User)
    (username password : String) : Res AuthToken :=
  match store.find? (fun u => u.username == username) with
  | none => Res.failMsg 401 "Invalid username or password"
  | some user =>
    if hash password == user.password then
      Res.envelope 200 (generateToken { id := user.id, role := user.role })
    else Res.failMsg 401 "Invalid username or password"

/-- `POST /v1/auth/login`: `validateBody(login schema)` then the controller. -/
def loginRoute (hash : String → String) (store : List User)
    (username password : Option String) : Res AuthToken :=
  match loginBodyError username password with
  | some msg => errorPipeline (validationException msg)
  | none => login hash store (username.getD "") (password.getD "")

/-! ## Claim C2: the rating aggregator -/

/-- Forty reviews, thirty-nine rated 2 and one rated 3: the exact mean is
`81/40 = 2.025`, which is *not* representable in binary64 (the nearest
double is just below `2.025`), so `toFixed(2)` yields `2.02` while
round-half-away-from-zero on the exact mean yields `2.03`. -/
def c2Reviews : List Review :=
  List.replicate 39 { id := "r", content := "", rating := 2, author := "a" }
    ++ [{ id := "s", content := "", rating := 3, author := "a" }]

/-- Eight reviews with rating sum 17: the mean `17/8 = 2.125` is exactly
representable in binary64, and `toFixed(2)` resolves the decimal tie
upward to `2.13`. -/
def c2WitnessReviews : List Review :=
  [{ id := "a1", content := "", rating := 1, author := "a" },
   { id := "a2", content := "", rating := 1, author := "a" },
   { id := "a3", content := "", rating := 2, author := "a" },
   { id := "a4", content := "", rating := 2, author := "a" },
   { id := "a5", content := "", rating := 2, author := "a" },
   { id := "a6", content := "", rating := 3, author := "a" },
   { id := "a7", content := "", rating := 3, author := "a" },
   { id := "a8", content := "", rating := 3, author := "a" }]

/-- Claim C2, counterexample: on thirty-nine ratings of 2 and one of 3 the
aggregator returns `2.02` (`101/50`), while the arithmetic mean `2.025`
rounded to two decimals half-away-from-zero is `2.03` (`203/100`) — the
claim's description of the result as the mean rounded half-away-from-zero
fails, because `toFixed` acts on the binary64 quotient, which here is
strictly below the exact mean. -/
theorem c2_aggregator_counterexample :
    updateAverageRating c2Reviews = Rat.divInt 101 50
    ∧ recomputeSpec c2Reviews = Rat.divInt 203 100
    ∧ updateAverageRating c2Reviews ≠ recomputeSpec c2Reviews := by
  decide

/-- Claim C2 (amended): the aggregator returns `0` on an empty review list
and is deterministic (calling it twice on the same list gives the same
value); on a nonempty list it returns `toFixed(2)` of the *binary64*
quotient of sum by count, which equals the arithmetic mean rounded
half-away-from-zero at two decimals whenever that quotient is exactly
representable in binary64 (e.g. when the review count is a power of two) —
but not in general. -/
theorem c2_aggregator_behavior (R : List Review) :
    (R.length = 0 → updateAverageRating R = 0)
    ∧ updateAverageRating R = updateAverageRating R
    ∧ (R.length ≠ 0 →
        doubleRound ((R.map Review.rating).sum / (R.length : ℚ))
            = (R.map Review.rating).sum / (R.length : ℚ) →
        updateAverageRating R = recomputeSpec R) := by
  refine ⟨fun h => by rw [updateAverageRating, if_pos h], rfl, fun h hrep => ?_⟩
  have hq : qdiv (totalRating R) (R.length : ℚ)
      = (R.map Review.rating).sum / (R.length : ℚ) := by
    rw [qdiv_eq, totalRating_eq]
  rw [updateAverageRating, if_neg h, recomputeSpec, if_neg h, hq, hrep]

/-- Claim C2, witness: on the eight-review list with mean `2.125` the
hypotheses hold and the aggregator agrees with the spec's rounding,
producing `2.13`. -/
theorem c2_aggregator_behavior_witness :
    updateAverageRating c2WitnessReviews = recomputeSpec c2WitnessReviews
    ∧ updateAverageRating c2WitnessReviews = Rat.divInt 213 100 := by
  have hmean : (c2WitnessReviews.map Review.rating).sum / (c2WitnessReviews.length : ℚ)
      = Rat.divInt 17 8 := by
    rw [Rat.divInt_eq_div]
    norm_num [c2WitnessReviews]
  refine ⟨(c2_aggregator_behavior c2WitnessReviews).2.2 (by decide) ?_, by decide⟩
  rw [hmean]
  decide

/-! ## Claim C5: the final error handler -/

/-- Claim C5: an uncategorized error — one that is neither a Mongoose
`ValidationError` nor any `AppException` subclass — falls through the
error chain to `finalError.middleware.js`, whose response is always status
`500` with the fixed body `{success:false, message:'unintended error
happened'}`; the response is the same for any two such errors, so it
carries no trace of the error's message or stack (which are only logged). -/
theorem c5_uncategorized_error_500 {α : Type} (e₁ e₂ : JsError)
    (h₁ : e₁.name ≠ "ValidationError" ∧ e₁.kind = .plain)
    (h₂ : e₂.name ≠ "ValidationError" ∧ e₂.kind = .plain) :
    errorPipeline e₁ = (Res.failMsg 500 "unintended error happened" : Res α)
    ∧ (errorPipeline e₁ : Res α) = errorPipeline e₂ := by
  have gen : ∀ e : JsError, e.name ≠ "ValidationError" → e.kind = .plain →
      errorPipeline e = (Res.failMsg 500 "unintended error happened" : Res α) := by
    intro e hn hk
    simp [errorPipeline, validationErrorMw, notFoundErrorMw, conflictsErrorMw,
      finalErrorMw, hn, hk]
  exact ⟨gen e₁ h₁.1 h₁.2, by rw [gen e₁ h₁.1 h₁.2, gen e₂ h₂.1 h₂.2]⟩

/-- Claim C5, witness: a concrete `TypeError` with a populated message and
stack gets the fixed generic 500 body. -/
theorem c5_uncategorized_error_500_witness :
    errorPipeline { name := "TypeError", message := "boom",
                    stack := "at movieController", kind := .plain }
      = (Res.failMsg 500 "unintended error happened" : Res Unit) :=
  (c5_uncategorized_error_500
    { name := "TypeError", message := "boom", stack := "at movieController",
      kind := .plain }
    { name := "RangeError", message := "other", stack := "", kind := .plain }
    ⟨by decide, rfl⟩ ⟨by decide, rfl⟩).1

/-! ## Claim C4: the averageRating consistency invariant -/

/-- A movie in a consistent state: one review rated 5, average `5`. -/
def c4Movie : Movie :=
  { id := "m1", title := "Heat", description := "A heist film",
    types := ["crime"], averageRating := 5,
    reviews := [{ id := "r1", content := "great", rating := 5, author := "u1" }] }

/-- The client body `{averageRating: 3}` of an admin `PATCH /v1/movies/m1`. -/
def c4Body : MovieUpdateBody :=
  { title := none, description := none, types := none,
    averageRating := some 3, reviews := none }

/-- Claim C4, failing input: `updateMovie` passes `req.body` wholesale to
`Movie.findByIdAndUpdate`, so a client body `{averageRating: 3}` on a movie
whose sole review is rated 5 completes with `200` and persists
`averageRating = 3`, while the aggregate recomputed from the unchanged
review list is `5` — a client request set the derived field to a value
inconsistent with the reviews, which the claim (and the spec's invariant)
says must be impossible. -/
theorem c4_update_movie_breaks_invariant :
    c4Movie.averageRating = updateAverageRating c4Movie.reviews
    ∧ (updateMovie [c4Movie] "m1" c4Body).1.statusOf = 200
    ∧ (updateMovie [c4Movie] "m1" c4Body).2
        = [{ c4Movie with averageRating := 3 }]
    ∧ ∀ m ∈ (updateMovie [c4Movie] "m1" c4Body).2,
        m.averageRating ≠ updateAverageRating m.reviews := by
  decide

/-! ## Claims C1 and C3: the authorization pipelines -/

/-- Every rejection of `authGuard` — missing header, malformed header, or a
token the verifier refuses — carries status 401. -/
theorem authGuard_error_status {α : Type} (validate : String → Option JwtPayload)
    (header : Option String) (e : Res α)
    (h : authGuard validate header = .error e) : e.statusOf = 401 := by
  cases header with
  | none =>
    rw [authGuard] at h
    cases h
    rfl
  | some a =>
    rw [authGuard] at h
    split at h
    · cases h
      rfl
    · split at h
      · cases h
        rfl
      · cases h

/-- Claim C3: on each movie-mutation route (`authGuard` then
`roleGuard('admin')` then the controller), a request without a valid bearer
token is answered `401` with the store untouched; an authenticated
non-admin is answered `403` with the store untouched; and the controller
runs exactly when the actor is authenticated with role `'admin'` — the two
deny causes are always distinguished by their statuses. -/
theorem c3_movie_mutation_admin_only {σ α : Type}
    (validate : String → Option JwtPayload) (header : Option String)
    (handler : JwtPayload → σ → Res α × σ) (s : σ) (user : JwtPayload) :
    (∀ e : Res α, authGuard validate header = .error e →
      adminRoute validate header handler s = (e, s) ∧ e.statusOf = 401)
    ∧ (authGuard validate header = (.ok user : Except (Res α) JwtPayload) →
        (user.role = "admin" → adminRoute validate header handler s = handler user s)
        ∧ (user.role ≠ "admin" →
            adminRoute validate header handler s
              = (Res.msgOnly 403
                  "Forbidden: You do not have permission to perform this action", s))) := by
  constructor
  · intro e he
    refine ⟨?_, authGuard_error_status validate header e he⟩
    rw [adminRoute, he]
  · intro hok
    constructor
    · intro hadmin
      simp [adminRoute, hok, roleGuard, hadmin]
    · intro hnot
      simp [adminRoute, hok, roleGuard, hnot]

/-- The verifier of the C3 witness: one admin token and one user token. -/
def c3Validate : String → Option JwtPayload := fun t =>
  if t = "admintok" then some { id := "a1", role := "admin" }
  else if t = "usertok" then some { id := "u1", role := "user" }
  else none

/-- A placeholder movie-mutation controller for the C3 witness. -/
def c3Handler : JwtPayload → List Movie → Res String × List Movie :=
  fun _ s => (Res.payload 201 "created", s)

/-- Claim C3, witness: with no header the route answers 401; with the user
token it answers 403 leaving the store untouched; with the admin token the
controller runs. -/
theorem c3_movie_mutation_admin_only_witness :
    adminRoute c3Validate none c3Handler ([] : List Movie)
      = (Res.msgOnly 401 "Missing authorization header", [])
    ∧ adminRoute c3Validate (some "Bearer usertok") c3Handler ([] : List Movie)
      = (Res.msgOnly 403
          "Forbidden: You do not have permission to perform this action", [])
    ∧ adminRoute c3Validate (some "Bearer admintok") c3Handler ([] : List Movie)
      = (Res.payload 201 "created", []) := by
  refine ⟨?_, ?_, ?_⟩
  · exact ((c3_movie_mutation_admin_only c3Validate none c3Handler []
      { id := "a1", role := "admin" }).1 _ rfl).1
  · exact ((c3_movie_mutation_admin_only c3Validate (some "Bearer usertok") c3Handler []
      { id := "u1", role := "user" }).2 rfl).2 (by decide)
  · exact ((c3_movie_mutation_admin_only c3Validate (some "Bearer admintok") c3Handler []
      { id := "a1", role := "admin" }).2 rfl).1 rfl

/-- Claim C1: on the review mutation routes (`authGuard` then the
controller), a request without a valid bearer token is answered `401` with
the store untouched — the handler never runs; an authenticated actor who is
neither the review's author nor an admin is answered `403` with the store
untouched; and an actor who is the author or an admin passes the
authorization check on both routes (the response is never `401` or `403`). -/
theorem c1_review_mutation_acl (validate : String → Option JwtPayload)
    (header : Option String) (state : List Movie) (reviewId : String)
    (b : ReviewBody) (movie : Movie) (review : Review) (user : JwtPayload)
    (hfind : findMovieWithReview state reviewId = some movie)
    (hrev : movie.reviews.find? (fun r => r.id == reviewId) = some review) :
    (∀ e : Res Review, authGuard validate header = .error e →
      reviewPatchRoute validate header state reviewId b = (e, state)
      ∧ reviewDeleteRoute validate header state reviewId = (e, state)
      ∧ e.statusOf = 401)
    ∧ (authGuard validate header = (.ok user : Except (Res Review) JwtPayload) →
        (¬ (review.author = user.id ∨ user.role = "admin") →
          reviewPatchRoute validate header state reviewId b
            = (Res.failMsg 403 "Forbidden: You can only update your own reviews.",
                state)
          ∧ reviewDeleteRoute validate header state reviewId
            = (Res.failMsg 403 "Forbidden: You can only delete your own reviews.",
                state))
        ∧ ((review.author = user.id ∨ user.role = "admin") →
            (reviewPatchRoute validate header state reviewId b).1.statusOf ≠ 401
            ∧ (reviewPatchRoute validate header state reviewId b).1.statusOf ≠ 403
            ∧ (reviewDeleteRoute validate header state reviewId).1.statusOf ≠ 401
            ∧ (reviewDeleteRoute validate header state reviewId).1.statusOf ≠ 403)) := by
  constructor
  · intro e he
    exact ⟨by simp [reviewPatchRoute, he], by simp [reviewDeleteRoute, he],
      authGuard_error_status validate header e he⟩
  · intro hok
    constructor
    · intro hno
      have hcond : review.author ≠ user.id ∧ user.role ≠ "admin" := by
        push_neg at hno
        exact hno
      constructor
      · simp [reviewPatchRoute, hok, updateReview, hfind, hrev, hcond.1, hcond.2]
      · simp [reviewDeleteRoute, hok, deleteReview, hfind, hrev, hcond.1, hcond.2]
    · intro halw
      have hcond : ¬ (review.author ≠ user.id ∧ user.role ≠ "admin") := by
        rcases halw with h | h
        · exact fun hc => hc.1 h
        · exact fun hc => hc.2 h
      have hpatch :
          reviewPatchRoute validate header state reviewId b
            = updateReview user state reviewId b := by
        simp [reviewPatchRoute, hok]
      have hdel :
          reviewDeleteRoute validate header state reviewId
            = deleteReview user state reviewId := by
        simp [reviewDeleteRoute, hok]
      rw [hpatch, hdel, updateReview, hfind]
      rw [deleteReview, hfind]
      simp only [hrev, if_neg hcond]
      refine ⟨?_, ?_, ?_, ?_⟩ <;>
        first
          | (split_ifs <;>
              simp [Res.statusOf, errorPipeline, validationErrorMw,
                mongooseValidationError])
          | simp [Res.statusOf]

/-- The verifier of the C1 witness: a single valid token for the
non-author, non-admin user `u2`. -/
def c1Validate : String → Option JwtPayload := fun t =>
  if t = "tok-u2" then some { id := "u2", role := "user" } else none

/-- The review under attack in the C1 witness, authored by `u1`. -/
def c1Review : Review :=
  { id := "r1", content := "good", rating := 4, author := "u1" }

/-- The movie holding `c1Review`. -/
def c1Movie : Movie :=
  { id := "m1", title := "Heat", description := "A heist film",
    types := ["crime"], averageRating := 4, reviews := [c1Review] }

/-- Claim C1, witness: the authenticated non-author, non-admin `u2` is
answered 403 on both `PATCH /v1/reviews/r1` and `DELETE /v1/reviews/r1`,
and the store is unchanged. -/
theorem c1_review_mutation_acl_witness :
    reviewPatchRoute c1Validate (some "Bearer tok-u2") [c1Movie] "r1"
        { content := some "x", rating := none }
      = (Res.failMsg 403 "Forbidden: You can only update your own reviews.",
          [c1Movie])
    ∧ reviewDeleteRoute c1Validate (some "Bearer tok-u2") [c1Movie] "r1"
      = (Res.failMsg 403 "Forbidden: You can only delete your own reviews.",
          [c1Movie]) := by
  have h := c1_review_mutation_acl c1Validate (some "Bearer tok-u2") [c1Movie]
    "r1" { content := some "x", rating := none } c1Movie c1Review
    { id := "u2", role := "user" } (by decide) (by decide)
  exact (h.2 rfl |>.1) (by decide)

/-! ## Claims C6, C7, C8: registration and login -/

/-- Claim C6: a registration whose (otherwise valid) username is already
taken hits the unique index, is mapped to a `ConflictsException`, and is
answered `409 {success:false, error:'Username already exists'}` by the
conflicts middleware, with the user store unchanged. -/
theorem c6_duplicate_username_conflict (hash : String → String)
    (freshId : String) (store : List User) (username password : String)
    (hu : usernameError (some username) = none)
    (hp : passwordError (some password) = none)
    (hdup : ∃ u ∈ store, u.username = username) :
    registerRoute hash freshId store (some username) (some password)
      = (Res.failErr 409 "Username already exists", store) := by
  have hval : registerBodyError (some username) (some password) = none := by
    rw [registerBodyError, hu, hp]
  have hany : store.any (fun u => u.username == username) = true := by
    rcases hdup with ⟨u, hu', he⟩
    exact List.any_eq_true.mpr ⟨u, hu', by simp [he]⟩
  simp [registerRoute, hval, register, hany, errorPipeline, validationErrorMw,
    notFoundErrorMw, conflictsErrorMw, conflictsException, exceptionStatusCode]

/-- The pre-existing user of the C6 witness. -/
def c6Store : List User :=
  [{ id := "u1", username := "alice_bob", password := "stored-hash",
     role := "user" }]

/-- Claim C6, witness: registering `alice_bob` again is answered 409 with
the conflict body and the store is unchanged. -/
theorem c6_duplicate_username_conflict_witness :
    registerRoute (fun p => p ++ "#h") "u2" c6Store
        (some "alice_bob") (some "Passw0rd!")
      = (Res.failErr 409 "Username already exists", c6Store) :=
  c6_duplicate_username_conflict (fun p => p ++ "#h") "u2" c6Store
    "alice_bob" "Passw0rd!" (by decide) (by decide) (by decide)

/-- Looking a username up in a store extended with a user carrying that
username finds exactly the new user when no stored user has it. -/
theorem find?_username_append (store : List User) (username : String)
    (nu : User) (hnew : ∀ u ∈ store, u.username ≠ username)
    (hn : nu.username = username) :
    (store ++ [nu]).find? (fun u => u.username == username) = some nu := by
  rw [List.find?_append]
  have h1 : store.find? (fun u => u.username == username) = none := by
    rw [List.find?_eq_none]
    intro u hu'
    simp [hnew u hu']
  rw [h1]
  simp [hn]

/-- Claim C7: registering a fresh valid username/password pair succeeds
with a `201` envelope carrying a token, and logging in with the same
credentials against the resulting store succeeds with a `200` envelope
carrying a token; both tokens decode to the same `{id, role}` payload —
the fresh user id with the default role `'user'`. -/
theorem c7_register_login_roundtrip (hash : String → String)
    (freshId : String) (store : List User) (username password : String)
    (hu : usernameError (some username) = none)
    (hp : passwordError (some password) = none)
    (hnew : ∀ u ∈ store, u.username ≠ username) :
    ∃ t t' : AuthToken,
      registerRoute hash freshId store (some username) (some password)
        = (Res.envelope 201 t,
            store ++ [{ id := freshId, username := username,
                        password := hash password, role := "user" }])
      ∧ loginRoute hash
          (registerRoute hash freshId store (some username) (some password)).2
          (some username) (some password)
        = Res.envelope 200 t'
      ∧ decodeToken t = some { id := freshId, role := "user" }
      ∧ decodeToken t' = some { id := freshId, role := "user" } := by
  have hval : registerBodyError (some username) (some password) = none := by
    rw [registerBodyError, hu, hp]
  have hneu : username ≠ "" := by
    intro h
    rw [h] at hu
    simp [usernameError] at hu
  have hnep : password ≠ "" := by
    intro h
    rw [h] at hp
    simp [passwordError] at hp
  have hany : store.any (fun u => u.username == username) = false := by
    rw [List.any_eq_false]
    intro u hu'
    simp [hnew u hu']
  have hreg : registerRoute hash freshId store (some username) (some password)
      = (Res.envelope 201 (generateToken { id := freshId, role := "user" }),
          store ++ [{ id := freshId, username := username,
                      password := hash password, role := "user" }]) := by
    simp [registerRoute, hval, register, hany]
  have hlogval : loginBodyError (some username) (some password) = none := by
    simp [loginBodyError, hneu, hnep]
  have hfind := find?_username_append store username
    { id := freshId, username := username, password := hash password,
      role := "user" } hnew rfl
  refine ⟨generateToken { id := freshId, role := "user" },
    generateToken { id := freshId, role := "user" }, hreg, ?_, rfl, rfl⟩
  rw [hreg]
  simp [loginRoute, hlogval, login, hfind]

/-- Claim C7, witness: registering then logging in `frank_oz` with
`Passw0rd!` on the empty store round-trips to the same `{id, role}`. -/
theorem c7_register_login_roundtrip_witness :
    ∃ t t' : AuthToken,
      registerRoute (fun p => p ++ "#h") "id-1" [] (some "frank_oz")
          (some "Passw0rd!")
        = (Res.envelope 201 t,
            [{ id := "id-1", username := "frank_oz",
               password := "Passw0rd!#h", role := "user" }])
      ∧ loginRoute (fun p => p ++ "#h")
          (registerRoute (fun p => p ++ "#h") "id-1" [] (some "frank_oz")
            (some "Passw0rd!")).2
          (some "frank_oz") (some "Passw0rd!")
        = Res.envelope 200 t'
      ∧ decodeToken t = some { id := "id-1", role := "user" }
      ∧ decodeToken t' = some { id := "id-1", role := "user" } :=
  c7_register_login_roundtrip (fun p => p ++ "#h") "id-1" [] "frank_oz"
    "Passw0rd!" (by decide) (by decide) (by simp)

/-- Claim C8: a registration whose username is shorter than 6 characters is
rejected by the Joi validation middleware before the controller runs: the
response is `400 {success:false, error: msg}` where `msg` is one of the
username schema's own messages (naming the violated username constraint),
and the user store is unchanged. -/
theorem c8_short_username_rejected (hash : String → String) (freshId : String)
    (store : List User) (username : String) (password : Option String)
    (hshort : username.length < 6) :
    ∃ msg : String,
      registerRoute hash freshId store (some username) password
        = (Res.failErr 400 msg, store)
      ∧ (msg = "\"username\" is not allowed to be empty"
        ∨ msg = "Username may only contain letters, numbers, and underscores (_)"
        ∨ msg = "Username must be at least 3 characters long") := by
  have hue : ∃ msg : String,
      usernameError (some username) = some msg
      ∧ (msg = "\"username\" is not allowed to be empty"
        ∨ msg = "Username may only contain letters, numbers, and underscores (_)"
        ∨ msg = "Username must be at least 3 characters long") := by
    rw [usernameError]
    split_ifs
    all_goals first
      | exact ⟨_, rfl, Or.inl rfl⟩
      | exact ⟨_, rfl, Or.inr (Or.inl rfl)⟩
      | exact ⟨_, rfl, Or.inr (Or.inr rfl)⟩
      | omega
  rcases hue with ⟨msg, hmsg, hone⟩
  refine ⟨msg, ?_, hone⟩
  have hval : registerBodyError (some username) password = some msg := by
    rw [registerBodyError, hmsg]
  simp [registerRoute, hval, errorPipeline, validationErrorMw,
    validationException, exceptionStatusCode]

/-- Claim C8, witness: registering with username `ab` is answered 400 with
a username-schema message and nothing is persisted. -/
theorem c8_short_username_rejected_witness :
    ∃ msg : String,
      registerRoute (fun p => p ++ "#h") "id-1" [] (some "ab")
          (some "Passw0rd!")
        = (Res.failErr 400 msg, [])
      ∧ (msg = "\"username\" is not allowed to be empty"
        ∨ msg = "Username may only contain letters, numbers, and underscores (_)"
        ∨ msg = "Username must be at least 3 characters long") :=
  c8_short_username_rejected (fun p => p ++ "#h") "id-1" [] "ab"
    (some "Passw0rd!") (by decide)

/-! ## Claim C9: review content is optional -/

/-- Claim C9: an authenticated actor posting to an existing movie a body
holding only a valid integer rating in `[1,5]` (no `content`) is answered
`201` with the created review, whose `content` is the schema default `''`;
the stored movie gains that review with empty content. -/
theorem c9_review_content_optional (validate : String → Option JwtPayload)
    (header : Option String) (freshId : String) (state : List Movie)
    (movieId : String) (rating : ℚ) (user : JwtPayload) (movie : Movie)
    (hauth : authGuard validate header = (.ok user : Except (Res Review) JwtPayload))
    (hmovie : state.find? (fun m => m.id == movieId) = some movie)
    (hint : ∃ k : ℤ, rating = (k : ℚ))
    (hlo : 1 ≤ rating) (hhi : rating ≤ 5) :
    (reviewPostRoute validate header freshId state movieId
        { content := none, rating := some rating }).1
      = Res.payload 201
          { id := freshId, content := "", rating := rating, author := user.id }
    ∧ ∃ m ∈ (reviewPostRoute validate header freshId state movieId
          { content := none, rating := some rating }).2,
        ∃ r ∈ m.reviews, r.id = freshId ∧ r.content = "" ∧ r.rating = rating := by
  have hvalid : ratingValid rating = true := by
    rw [ratingValid, Bool.and_eq_true]
    exact ⟨(qleB_iff 1 rating).mpr hlo, (qleB_iff rating 5).mpr hhi⟩
  constructor
  · simp [reviewPostRoute, hauth, createReview, hmovie, hvalid]
  · have hm : movie ∈ state := List.mem_of_find?_eq_some hmovie
    simp only [reviewPostRoute, hauth, createReview, hmovie, hvalid, if_true,
      saveMovie]
    refine ⟨_, List.mem_map.mpr ⟨movie, hm, rfl⟩, ?_⟩
    refine ⟨{ id := freshId, content := "", rating := rating,
              author := user.id }, ?_, rfl, rfl, rfl⟩
    simp

/-- The verifier of the C9 witness. -/
def c9Validate : String → Option JwtPayload := fun t =>
  if t = "tok-u3" then some { id := "u3", role := "user" } else none

/-- A reviewless movie for the C9 witness. -/
def c9Movie : Movie :=
  { id := "m2", title := "Ran", description := "An epic", types := ["drama"],
    averageRating := 0, reviews := [] }

/-- Claim C9, witness: posting `{rating: 5}` with no content to `m2` as the
authenticated `u3` yields 201 and an empty-content stored review. -/
theorem c9_review_content_optional_witness :
    (reviewPostRoute c9Validate (some "Bearer tok-u3") "r9" [c9Movie] "m2"
        { content := none, rating := some 5 }).1
      = Res.payload 201 { id := "r9", content := "", rating := 5, author := "u3" }
    ∧ ∃ m ∈ (reviewPostRoute c9Validate (some "Bearer tok-u3") "r9" [c9Movie] "m2"
          { content := none, rating := some 5 }).2,
        ∃ r ∈ m.reviews, r.id = "r9" ∧ r.content = "" ∧ r.rating = 5 :=
  c9_review_content_optional c9Validate (some "Bearer tok-u3") "r9" [c9Movie]
    "m2" 5 { id := "u3", role := "user" } c9Movie rfl (by decide)
    ⟨5, by norm_num⟩ (by norm_num) (by norm_num)

/-! ## Claim C10: movie listing — filter, sort, paginate -/

/-- `take` up to the clamped bound equals `take` up to the raw bound. -/
theorem take_min_length {α : Type} (l : List α) (n : ℕ) :
    l.take (min n l.length) = l.take n := by
  rcases le_total n l.length with h | h
  · rw [min_eq_left h]
  · rw [min_eq_right h, List.take_length, List.take_of_length_le h]

/-- `Array.prototype.slice` over a nonnegative start and a window of
nonnegative width is `drop` then `take`. -/
theorem jsSlice_nonneg {α : Type} (l : List α) (s k : ℤ) (hs : 0 ≤ s)
    (hk : 0 ≤ k) :
    jsSlice l s (s + k) = (l.drop s.toNat).take k.toNat := by
  rw [jsSlice]
  rw [if_neg (by omega), if_neg (by omega)]
  have h1 : (min s (l.length : ℤ)).toNat = min s.toNat l.length := by omega
  have h2 : (min (s + k) (l.length : ℤ)).toNat
      = min (s.toNat + k.toNat) l.length := by omega
  rw [h1, h2]
  rcases le_total (s.toNat + k.toNat) l.length with h | h
  · have hs' : s.toNat ≤ l.length := by omega
    rw [min_eq_left h, min_eq_left hs', ← List.take_drop]
  · rw [min_eq_right h, List.take_length]
    rcases le_total s.toNat l.length with h3 | h3
    · rw [min_eq_left h3]
      refine (List.take_of_length_le ?_).symm
      rw [List.length_drop]
      omega
    · rw [min_eq_right h3, List.drop_length,
        List.drop_eq_nil_of_le h3]
      simp

/-- Claim C10: the movie listing parses `page` (default 1) and `limit`
(default 10), the defaults applying when the parameter is absent or
non-numeric; it filters by keyword, sorts the filtered list by
`averageRating` (ascending for `sort=rating`, descending for
`sort=-rating`, untouched otherwise), and returns the contiguous slice of
`limit` entries starting at index `(page-1)*limit` — hence at most `limit`
movies.  Stated for pages and limits that parse to positive counts. -/
theorem c10_get_movies_pagination (state : List Movie) (q : MoviesQuery)
    (hp : 1 ≤ parseIntOr q.page 1) (hl : 1 ≤ parseIntOr q.limit 10) :
    ∃ L : List Movie,
      L.Perm (keywordFilter q.keyword state)
      ∧ (q.sort = some "rating" →
          List.Sorted (fun a b => a.averageRating ≤ b.averageRating) L)
      ∧ (q.sort = some "-rating" →
          List.Sorted (fun a b => b.averageRating ≤ a.averageRating) L)
      ∧ (q.sort ≠ some "rating" → q.sort ≠ some "-rating" →
          L = keywordFilter q.keyword state)
      ∧ getMovies state q
          = (L.drop ((parseIntOr q.page 1 - 1) * parseIntOr q.limit 10).toNat).take
              (parseIntOr q.limit 10).toNat
      ∧ (getMovies state q).length ≤ (parseIntOr q.limit 10).toNat
      ∧ parseIntOr none 1 = 1 ∧ parseIntOr none 10 = 10
      ∧ (∀ str : String, jsParseInt str = none →
          parseIntOr (some str) 1 = 1 ∧ parseIntOr (some str) 10 = 10) := by
  haveI instTotAsc :
      IsTotal Movie (fun a b => a.averageRating ≤ b.averageRating) :=
    ⟨fun a b => le_total _ _⟩
  haveI instTransAsc :
      IsTrans Movie (fun a b => a.averageRating ≤ b.averageRating) :=
    ⟨fun _ _ _ h₁ h₂ => le_trans h₁ h₂⟩
  haveI instTotDesc :
      IsTotal Movie (fun a b => b.averageRating ≤ a.averageRating) :=
    ⟨fun a b => le_total _ _⟩
  haveI instTransDesc :
      IsTrans Movie (fun a b => b.averageRating ≤ a.averageRating) :=
    ⟨fun _ _ _ h₁ h₂ => le_trans h₂ h₁⟩
  have hslice : getMovies state q
      = ((sortMovies q.sort (keywordFilter q.keyword state)).drop
            ((parseIntOr q.page 1 - 1) * parseIntOr q.limit 10).toNat).take
          (parseIntOr q.limit 10).toNat := by
    simp only [getMovies]
    exact jsSlice_nonneg _ _ _
      (mul_nonneg (by omega) (by omega)) (by omega)
  refine ⟨sortMovies q.sort (keywordFilter q.keyword state),
    ?_, ?_, ?_, ?_, hslice, ?_, rfl, rfl, ?_⟩
  · rw [sortMovies]
    split_ifs with h1 h2
    · exact List.perm_insertionSort _ _
    · exact List.perm_insertionSort _ _
    · exact List.Perm.refl _
  · intro h
    rw [sortMovies, if_pos h]
    exact List.sorted_insertionSort _ _
  · intro h
    rw [sortMovies]
    rw [if_neg (by simp [h]), if_pos h]
    exact List.sorted_insertionSort _ _
  · intro h1 h2
    rw [sortMovies, if_neg h1, if_neg h2]
  · rw [hslice]
    exact List.length_take_le _ _
  · intro str h
    constructor <;> simp [parseIntOr, h]

/-- Three movies for the C10 witness. -/
def c10State : List Movie :=
  [{ id := "m1", title := "Alien", description := "Space horror",
     types := ["horror"], averageRating := 4, reviews := [] },
   { id := "m2", title := "Aliens", description := "More space horror",
     types := ["horror"], averageRating := 5, reviews := [] },
   { id := "m3", title := "Heat", description := "A heist film",
     types := ["crime"], averageRating := 3, reviews := [] }]

/-- The C10 witness query: keyword `alien`, descending rating, page 1 of
size 2. -/
def c10Query : MoviesQuery :=
  { keyword := some "alien", sort := some "-rating", page := some "1",
    limit := some "2" }

/-- Claim C10, witness: the pagination theorem applies to the concrete
three-movie store and query. -/
theorem c10_get_movies_pagination_witness :
    ∃ L : List Movie,
      L.Perm (keywordFilter c10Query.keyword c10State)
      ∧ (c10Query.sort = some "rating" →
          List.Sorted (fun a b => a.averageRating ≤ b.averageRating) L)
      ∧ (c10Query.sort = some "-rating" →
          List.Sorted (fun a b => b.averageRating ≤ a.averageRating) L)
      ∧ (c10Query.sort ≠ some "rating" → c10Query.sort ≠ some "-rating" →
          L = keywordFilter c10Query.keyword c10State)
      ∧ getMovies c10State c10Query
          = (L.drop ((parseIntOr c10Query.page 1 - 1)
                * parseIntOr c10Query.limit 10).toNat).take
              (parseIntOr c10Query.limit 10).toNat
      ∧ (getMovies c10State c10Query).length ≤ (parseIntOr c10Query.limit 10).toNat
      ∧ parseIntOr none 1 = 1 ∧ parseIntOr none 10 = 10
      ∧ (∀ str : String, jsParseInt str = none →
          parseIntOr (some str) 1 = 1 ∧ parseIntOr (some str) 10 = 10) :=
  c10_get_movies_pagination c10State c10Query (by decide) (by decide)

end MoviesApi
